import Mathlib

/-!
Shallow embedding of the Universal-RAG-Assistant request-handling layer:
`app/web/fastapi_app.py` (the POST /ask flow and the chat save/load store)
and `app/agents/answer_agent.py` (`build_prompt`, `generate_answer`).

Python strings are modelled as `String` (Python `len`/slicing count code
points, as does `String.length`/`String.take`).  Python dicts that the code
reads only at fixed keys are modelled as structures whose optional fields
are `Option`-valued (`none` = key absent).  Calls to external collaborators
(the vector store retriever, the generation backend, `uuid4`, the clock)
are oracle parameters, and the /ask handler additionally returns the trace
of the calls it makes to them, so that claims about which argument reaches
which collaborator are statable.  Exceptions are modelled with `Except`.
-/

namespace RAG

/-- A chat message, mirroring the pydantic `Message` model of
`fastapi_app.py` (`role : str`, `content : str`, `ts : Optional[str]`). -/
structure Message where
  role : String
  content : String
  ts : Option String := none
deriving Repr, DecidableEq

/-- The metadata dict of a chunk, modelled at the keys the code reads:
`source` and `source_name` (`none` = key absent). -/
structure ChunkMeta where
  source : Option String := none
  source_name : Option String := none
deriving Repr, DecidableEq

/-- A retrieved chunk as built by `retrieval_agent.retrieve_relevant_chunks`:
`{"content": ..., "metadata": ..., "score": ...}`.  The score is kept only
as its decimal rendering (the code uses it only via `str(...)`). -/
structure Chunk where
  content : String
  metadata : ChunkMeta
  score : Option String := none
deriving Repr, DecidableEq

/-- Python `s[:n]`: the first `n` code points (`String.data` is the
code-point list, matching Python's indexing unit). -/
def pyTake (n : Nat) (s : String) : String :=
  ⟨s.data.take n⟩

/-- Python `str.lower()`, faithful on ASCII (all roles the spec discusses
are ASCII). -/
def pyLower (s : String) : String :=
  ⟨s.data.map Char.toLower⟩

/-- Configured maximum number of retained history messages
(`MAX_HISTORY_MESSAGES`, default 8). -/
def MAX_HISTORY_MESSAGES : Nat := 8

/-- Configured maximum characters per retained history message
(`MAX_HISTORY_CHAR`, default 400). -/
def MAX_HISTORY_CHAR : Nat := 400

/-- Configured retrieval depth (`RETRIEVE_K`, default 4). -/
def RETRIEVE_K : Nat := 4

/-- Python `history[-n:]`: the last `n` elements — except that `-0 == 0`,
so `n = 0` yields the whole list. -/
def pySliceLast (n : Nat) (l : List α) : List α :=
  if n = 0 then l else l.drop (l.length - n)

/-- Per-message content truncation of the /ask history loop:
`if len(content) > MAX_HISTORY_CHAR: content = content[:M] + "...(truncated)"`. -/
def truncContent (M : Nat) (s : String) : String :=
  if M < s.length then pyTake M s ++ "...(truncated)" else s

/-- A retained history message after the truncation step (role and
timestamp untouched, content truncated). -/
def truncMsg (M : Nat) (m : Message) : Message :=
  ⟨m.role, truncContent M m.content, m.ts⟩

/-- History truncation as performed by the /ask flow: keep the slice
`history[-N:]` and truncate each retained message's content to `M` chars. -/
def truncateHistory (N M : Nat) (h : List Message) : List Message :=
  (pySliceLast N h).map (truncMsg M)

/-- One transcript line of the /ask history loop:
`prefix = "User" if role.lower() == "user" else "Assistant"`,
then `f"{prefix}: {content}"` with the truncated content. -/
def renderLine (m : Message) : String :=
  (if pyLower m.role = "user" then "User" else "Assistant")
    ++ ": " ++ truncContent MAX_HISTORY_CHAR m.content

/-- The compact transcript built at step 1 of `ask_post`
(lines for the last `MAX_HISTORY_MESSAGES` messages, joined by newlines). -/
def buildConversationText (h : List Message) : String :=
  String.intercalate "\n" ((pySliceLast MAX_HISTORY_MESSAGES h).map renderLine)

/-- Step 2 of `ask_post`: the augmented query
(`f"Conversation history:\n{...}\n\nCurrent question:\n{q}"` when the
transcript is truthy, else the raw query). -/
def augmentedQuery (history : List Message) (q : String) : String :=
  let conversation_text := buildConversationText history
  if conversation_text = "" then q
  else "Conversation history:\n" ++ conversation_text
         ++ "\n\nCurrent question:\n" ++ q

/-- Truthy-or on an optional string, as in a Python `a or b` chain where
`a` is `dict.get(key)` (absent and `None` give `None`, empty string is
falsy). -/
def pyOrOptStr (a : Option String) (b : String) : String :=
  match a with
  | some s => if s = "" then b else s
  | none => b

/-- Truthy-or on strings (empty string is falsy). -/
def pyOrStr (a b : String) : String :=
  if a = "" then b else a

/-- Simplified stand-in for Python's `str(chunk_dict)`: used only as the
last-resort fallback string in source derivation; no claim depends on its
exact text, only on its being the stringified chunk. -/
def pyStrChunk (c : Chunk) : String :=
  "\x7bcontent: " ++ c.content ++ ", source: "
    ++ (match c.metadata.source with | some s => s | none => "None") ++ "\x7d"

/-- One labelled context excerpt of `build_prompt`:
`f"Source {i} ({src}):\n{excerpt}"` with `src = metadata.get("source",
f"chunk_{i}")` and the excerpt the first 800 chars, newlines replaced by
spaces. -/
def contextPart (i : Nat) (c : Chunk) : String :=
  let src := match c.metadata.source with
    | some s => s
    | none => "chunk_" ++ toString i
  let excerpt : String := ⟨(c.content.data.take 800).map (fun ch => if ch = '\n' then ' ' else ch)⟩
  "Source " ++ toString i ++ " (" ++ src ++ "):\n" ++ excerpt

/-- `answer_agent.build_prompt`: labelled excerpts joined by blank lines,
wrapped in the fixed instruction template. -/
def build_prompt (query : String) (chunks : List Chunk) : String :=
  let context_text :=
    String.intercalate "\n\n" (chunks.enum.map (fun p => contextPart (p.1 + 1) p.2))
  "You are an assistant that answers queries using the provided sources. "
    ++ "Cite the source number(s) you used at the end of the answer in square brackets."
    ++ "\n\nCONTEXT:\n" ++ context_text ++ "\n\nQUESTION:\n" ++ query
    ++ "\n\nAnswer concisely and include citations."

/-- The process-wide generation-backend mode resolved at import time in
`answer_agent.py`: a configured SDK (new or old — from `generate_answer`'s
view both are a prompt-to-text call that may raise), or no SDK at all. -/
inductive Backend where
  | sdk (gen : String → Except String String)
  | nosdk

/-- The dict `generate_answer` returns: `{"answer": ..., "sources": ...}`.
A `none` source entry models a Python `None` in the sources list. -/
structure GenResult where
  answer : String
  sources : List (Option String)
deriving Repr, DecidableEq

/-- `answer_agent.generate_answer`: build the prompt, dispatch on the
backend mode; with no SDK return the `[LOCAL-FALLBACK]` summary of the
first 3 chunks (500 chars each); in every returning path the sources list
is `[c["metadata"].get("source") for c in chunks]`. -/
def generate_answer (backend : Backend) (query : String) (chunks : List Chunk) :
    Except String GenResult :=
  let prompt := build_prompt query chunks
  match backend with
  | .sdk gen =>
      match gen prompt with
      | .ok text => .ok ⟨text, chunks.map (fun c => c.metadata.source)⟩
      | .error e => .error e
  | .nosdk =>
      let summary :=
        String.intercalate "\n\n" ((chunks.take 3).map (fun c => pyTake 500 c.content))
      .ok ⟨"[LOCAL-FALLBACK] " ++ summary, chunks.map (fun c => c.metadata.source)⟩

/-- A generic generator result dict as `ask_post` consumes it, modelled at
the three keys the handler reads.  An outer `none` is an absent key; an
inner `none` is a stored Python `None`. -/
structure AnswerDict where
  answer : Option (Option String) := none
  text : Option (Option String) := none
  sources : Option (List (Option String)) := none
deriving Repr, DecidableEq

/-- What `generate_answer` may hand back as seen from `ask_post`:
a dict or a plain string. -/
inductive AnswerObj where
  | dict (d : AnswerDict)
  | str (s : String)
deriving Repr, DecidableEq

/-- Keep an optional string only when truthy (present, non-`None`,
non-empty), as a Python `or` chain does. -/
def pyTruthy (a : Option String) : Option String :=
  match a with
  | some s => if s = "" then none else some s
  | none => none

/-- Simplified stand-in for Python's `str(answer_dict)`; claims depend only
on its being the stringified dict (in particular non-empty, brace-wrapped). -/
def pyStrAnswerDict (d : AnswerDict) : String :=
  let fld : Option (Option String) → String := fun f =>
    match f with
    | none => "<absent>"
    | some none => "None"
    | some (some s) => s
  "\x7banswer: " ++ (fld d.answer ++ (", text: " ++ (fld d.text
    ++ (", sources: " ++ (toString (d.sources.getD []).length ++ "\x7d")))))

/-- Python `dict.get(key)` on a modelled key: an absent key and a stored
`None` both give `None`. -/
def pyGetKey (x : Option (Option String)) : Option String :=
  match x with
  | some v => v
  | none => none

/-- Step 5 of `ask_post`: the normalized answer text of a dict result,
`answer_obj.get("answer") or answer_obj.get("text") or str(answer_obj)`. -/
def answerTextOfDict (d : AnswerDict) : String :=
  match pyTruthy (pyGetKey d.answer) with
  | some s => s
  | none =>
      match pyTruthy (pyGetKey d.text) with
      | some s => s
      | none => pyStrAnswerDict d

/-- Step 5 of `ask_post` in full: `(answer_text, sources)` from the
generator's return value (`sources = answer_obj.get("sources", [])` for a
dict, `str(answer_obj)` and `[]` for a plain string). -/
def normalizeAnswer : AnswerObj → String × List (Option String)
  | .dict d => (answerTextOfDict d, d.sources.getD [])
  | .str s => (s, [])

/-- Step 6 of `ask_post`: the derived source of one retrieved chunk,
`metadata.get("source") or metadata.get("source_name") or
str(c.get("score", "")) or str(c)`. -/
def deriveSource (c : Chunk) : String :=
  pyOrOptStr c.metadata.source
    (pyOrOptStr c.metadata.source_name
      (pyOrStr (c.score.getD "") (pyStrChunk c)))

/-- A stored conversation: `{"name": ..., "history": [...]}`. -/
structure ConvEntry where
  name : String
  history : List Message
deriving Repr, DecidableEq

/-- The in-memory `_conversation_store`, as an association list from
conversation id to entry. -/
def Store := List (String × ConvEntry)

/-- Dict lookup in the conversation store. -/
def lookupStore (cid : String) : Store → Option ConvEntry
  | [] => none
  | (k, v) :: rest => if k = cid then some v else lookupStore cid rest

/-- Dict assignment `store[cid] = e` (replace the entry if the key is
present, else add it). -/
def insertStore (cid : String) (e : ConvEntry) : Store → Store
  | [] => [(cid, e)]
  | (k, v) :: rest =>
      if k = cid then (k, e) :: rest else (k, v) :: insertStore cid e rest

/-- Step 7 of `ask_post`: `setdefault(conv_id, {"name": f"conv_{conv_id}",
"history": []})`, then append the timestamped user and assistant
messages. -/
def appendConv (cid q answer_text now : String) (store : Store) : Store :=
  let entry := match lookupStore cid store with
    | some e => e
    | none => ⟨"conv_" ++ cid, []⟩
  insertStore cid
    ⟨entry.name,
      entry.history ++ [⟨"user", q, some now⟩, ⟨"assistant", answer_text, some now⟩]⟩
    store

/-- The body of POST /ask: `{q, history?, conversation_id?}`. -/
structure AskPayload where
  q : String
  history : List Message := []
  conversation_id : Option String := none

/-- An HTTPException raised by a handler. -/
structure HTTPError where
  status : Nat
  detail : String
deriving Repr, DecidableEq

/-- The normalized response body of /ask (the inner
`{"answer": ..., "sources": [...]}` object). -/
structure AskResponse where
  answer : String
  sources : List (Option String)
deriving Repr, DecidableEq

/-- A recorded call to an external collaborator of the /ask handler. -/
inductive CallEv where
  | retrieveCall (query : String) (k : Nat)
  | generateCall (query : String) (chunks : List Chunk)
deriving Repr, DecidableEq

/-- The chunk list the handler continues with after step 3: the retriever's
result, or `[]` when retrieval raised (the `except` branch). -/
def retrievedChunksOf (retrieve : String → Except String (List Chunk))
    (q : String) : List Chunk :=
  match retrieve q with
  | .ok cs => cs
  | .error _ => []

/-- `ask_post`, the POST /ask handler, with the retriever and the generator
as oracles and the clock reading as a parameter.  Returns the HTTP outcome,
the conversation store after the request, and the trace of collaborator
calls made. -/
def ask_post (retrieve : String → Except String (List Chunk))
    (gen : String → List Chunk → Except String AnswerObj)
    (now : String) (payload : AskPayload) (store : Store) :
    Except HTTPError AskResponse × Store × List CallEv :=
  let q := payload.q
  let augmented_query := augmentedQuery payload.history q
  let retrieved_chunks := retrievedChunksOf retrieve q
  let trace := [CallEv.retrieveCall q RETRIEVE_K,
                CallEv.generateCall augmented_query retrieved_chunks]
  match gen augmented_query retrieved_chunks with
  | .error e => (.error ⟨500, "generate_answer error: " ++ e⟩, store, trace)
  | .ok answer_obj =>
      let normalized := normalizeAnswer answer_obj
      let answer_text := normalized.1
      let sources :=
        if normalized.2.isEmpty && !retrieved_chunks.isEmpty then
          retrieved_chunks.map (fun c => some (deriveSource c))
        else normalized.2
      let store' := match payload.conversation_id with
        | some cid =>
            if cid = "" then store else appendConv cid q answer_text now store
        | none => store
      (.ok ⟨answer_text, sources⟩, store', trace)

/-- The body of POST /save_chat: `{name?, history}`. -/
structure SaveChatPayload where
  name : Option String := none
  history : List Message

/-- `save_chat`, the POST /save_chat handler, with the generated
`uuid4()` string as a parameter.  Returns `(conversation_id, name)` and
the store after the call. -/
def save_chat (freshId : String) (payload : SaveChatPayload) (store : Store) :
    (String × String) × Store :=
  let generated := "chat_" ++ pyTake 8 freshId
  let name := match payload.name with
    | some n => if n = "" then generated else n
    | none => generated
  ((freshId, name), insertStore freshId ⟨name, payload.history⟩ store)

/-! ## Helper lemmas (shared) -/

theorem lookupStore_insertStore_self (cid : String) (e : ConvEntry) (s : Store) :
    lookupStore cid (insertStore cid e s) = some e := by
  induction s with
  | nil => simp [insertStore, lookupStore]
  | cons kv rest ih =>
      obtain ⟨k, v⟩ := kv
      by_cases hk : k = cid
      · simp [insertStore, hk, lookupStore]
      · simp [insertStore, hk, lookupStore, ih]

theorem lookupStore_insertStore_ne (j cid : String) (e : ConvEntry) (s : Store)
    (h : j ≠ cid) : lookupStore j (insertStore cid e s) = lookupStore j s := by
  induction s with
  | nil => simp [insertStore, lookupStore, Ne.symm h]
  | cons kv rest ih =>
      obtain ⟨k, v⟩ := kv
      by_cases hk : k = cid
      · subst hk
        have hkj : ¬ (k = j) := fun hh => h hh.symm
        simp [insertStore, lookupStore, hkj]
      · simp only [insertStore, if_neg hk, lookupStore]
        by_cases hkj : k = j
        · simp [hkj]
        · simp [hkj, ih]

theorem append_left_ne_empty (a b : String) (ha : a ≠ "") : a ++ b ≠ "" := by
  intro h
  apply ha
  have hd := congrArg String.data h
  rw [String.data_append] at hd
  rcases List.append_eq_nil.mp hd with ⟨h1, _⟩
  exact String.ext h1

theorem pyTruthy_some_ne_empty (x : Option String) (t : String)
    (hx : pyTruthy x = some t) : t ≠ "" := by
  cases x with
  | none => simp [pyTruthy] at hx
  | some s =>
      by_cases hs : s = ""
      · simp [pyTruthy, hs] at hx
      · simp [pyTruthy, hs] at hx
        exact hx ▸ hs

/-! ## Claims -/

/-- Claim C1: in the POST /ask flow, retrieval is always called with the
raw query `q` (never the augmented one), and generation is always called
with the augmented query as first argument together with the retrieved
chunks: the handler's collaborator-call trace is exactly a retrieve call
at `payload.q` followed by a generate call at the augmented query. -/
theorem ask_post_retrieves_raw_generates_augmented
    (retrieve : String → Except String (List Chunk))
    (gen : String → List Chunk → Except String AnswerObj)
    (now : String) (payload : AskPayload) (store : Store) :
    (ask_post retrieve gen now payload store).2.2 =
      [CallEv.retrieveCall payload.q RETRIEVE_K,
       CallEv.generateCall (augmentedQuery payload.history payload.q)
         (retrievedChunksOf retrieve payload.q)] := by
  cases hg : gen (augmentedQuery payload.history payload.q)
      (retrievedChunksOf retrieve payload.q) <;>
    simp [ask_post, hg]

/-- Claim C2: a retrieval failure is caught and the request proceeds
exactly as if retrieval had returned zero chunks (never aborting because
of it), whereas a generation failure aborts the request with an
HTTP 500 error. -/
theorem ask_post_retrieval_recoverable_generation_fatal
    (retrieve : String → Except String (List Chunk))
    (gen : String → List Chunk → Except String AnswerObj)
    (now : String) (payload : AskPayload) (store : Store) :
    (∀ e, retrieve payload.q = .error e →
        ask_post retrieve gen now payload store =
          ask_post (fun _ => .ok []) gen now payload store)
    ∧ (∀ ge, gen (augmentedQuery payload.history payload.q)
          (retrievedChunksOf retrieve payload.q) = .error ge →
        (ask_post retrieve gen now payload store).1 =
          .error ⟨500, "generate_answer error: " ++ ge⟩) := by
  constructor
  · intro e he
    have hcs : retrievedChunksOf retrieve payload.q =
        retrievedChunksOf (fun _ => .ok []) payload.q := by
      simp [retrievedChunksOf, he]
    simp only [ask_post, hcs]
  · intro ge hge
    simp [ask_post, hge]

/-- Witness for C2 at concrete oracles: a failing retriever yields the
same run as an empty-result retriever, and a failing generator yields the
500 error. -/
theorem ask_post_error_asymmetry_witness :
    (ask_post (fun _ => .error "boom") (fun _ _ => .ok (.str "ans")) "t"
        ⟨"q", [], none⟩ [] =
      ask_post (fun _ => .ok []) (fun _ _ => .ok (.str "ans")) "t"
        ⟨"q", [], none⟩ [])
    ∧ (ask_post (fun _ => .ok []) (fun _ _ => .error "down") "t"
        ⟨"q", [], none⟩ []).1 =
      .error ⟨500, "generate_answer error: down"⟩ :=
  ⟨(ask_post_retrieval_recoverable_generation_fatal _ _ _ _ _).1 "boom" rfl,
   (ask_post_retrieval_recoverable_generation_fatal _ _ _ _ _).2 "down" rfl⟩

/-- Claim C4: the augmented query carries the
`"Conversation history:\n...\n\nCurrent question:\n"` header exactly when
the rendered transcript is non-empty, and equals the raw query verbatim
when the provided history is empty. -/
theorem augmentedQuery_header_iff_history (history : List Message) (q : String) :
    (buildConversationText history ≠ "" →
       augmentedQuery history q =
         "Conversation history:\n" ++ buildConversationText history
           ++ "\n\nCurrent question:\n" ++ q)
    ∧ (history = [] → augmentedQuery history q = q) := by
  constructor
  · intro h
    simp [augmentedQuery, h]
  · intro h
    subst h
    rfl

/-- Witness for C4: a one-message history gets the header, the empty
history gets the raw query back verbatim. -/
theorem augmentedQuery_header_witness :
    augmentedQuery [⟨"user", "hi", none⟩] "What is X?" =
        "Conversation history:\n" ++ buildConversationText [⟨"user", "hi", none⟩]
          ++ "\n\nCurrent question:\n" ++ "What is X?"
    ∧ augmentedQuery [] "What is X?" = "What is X?" :=
  ⟨(augmentedQuery_header_iff_history [⟨"user", "hi", none⟩] "What is X?").1
      (by decide),
   (augmentedQuery_header_iff_history [] "What is X?").2 rfl⟩

/-- Claim C5: history truncation keeps exactly the last `N` messages in
original order with per-message content truncation, and is the identity
(hence idempotent) on a history that is already truncated (at most `N`
messages, each content at most `M` characters). -/
theorem truncateHistory_lastN_idempotent (N M : Nat) (hN : 0 < N)
    (h : List Message) :
    truncateHistory N M h = (h.drop (h.length - N)).map (truncMsg M)
    ∧ (h.length ≤ N → (∀ m ∈ h, m.content.length ≤ M) →
        truncateHistory N M h = h) := by
  have hN0 : N ≠ 0 := Nat.pos_iff_ne_zero.mp hN
  constructor
  · simp [truncateHistory, pySliceLast, hN0]
  · intro hlen hcont
    have hdrop : h.length - N = 0 := Nat.sub_eq_zero_of_le hlen
    have aux : ∀ (l : List Message), (∀ m ∈ l, m.content.length ≤ M) →
        l.map (truncMsg M) = l := by
      intro l
      induction l with
      | nil => intro _; rfl
      | cons a t ih =>
          intro hc
          have ha : ¬ (M < a.content.length) :=
            Nat.not_lt.mpr (hc a (List.mem_cons_self a t))
          have ht : ∀ m ∈ t, m.content.length ≤ M :=
            fun m hm => hc m (List.mem_cons_of_mem a hm)
          simp [truncMsg, truncContent, ha, ih ht]
    calc truncateHistory N M h = h.map (truncMsg M) := by
          simp [truncateHistory, pySliceLast, hN0, hdrop]
      _ = h := aux h hcont

/-- Witness for C5: an already-truncated one-message history is left
identical by the truncation at the default limits. -/
theorem truncateHistory_idempotent_witness :
    truncateHistory 8 400 [⟨"user", "hi", none⟩] = [⟨"user", "hi", none⟩] :=
  (truncateHistory_lastN_idempotent 8 400 (by decide) [⟨"user", "hi", none⟩]).2
    (by decide) (by decide)

/-- Claim C3: with no generation backend configured, `generate_answer`
returns an answer beginning with the `[LOCAL-FALLBACK]` marker followed by
the joined first-500-character excerpts of at most the first 3 chunks,
while the sources list has one entry per provided chunk (full chunk count,
not `min(3, len(chunks))`). -/
theorem generate_answer_nosdk_fallback (q : String) (chunks : List Chunk) :
    ∃ r, generate_answer Backend.nosdk q chunks = Except.ok r
      ∧ r.answer = "[LOCAL-FALLBACK] "
          ++ String.intercalate "\n\n" ((chunks.take 3).map (fun c => pyTake 500 c.content))
      ∧ (∃ rest, r.answer = "[LOCAL-FALLBACK]" ++ rest)
      ∧ r.sources = chunks.map (fun c => c.metadata.source)
      ∧ r.sources.length = chunks.length := by
  refine ⟨_, rfl, rfl, ⟨" " ++ String.intercalate "\n\n"
      ((chunks.take 3).map (fun c => pyTake 500 c.content)), ?_⟩, rfl, ?_⟩
  · rw [← String.append_assoc]
    rfl
  · simp

/-- Claim C6 counterexample: the spec claims any role string other than
exactly `"user"` is rendered with the `"Assistant: "` line label; the code
lowercases the role first, so the role `"USER"` is rendered as
`"User: x"`, refuting the claim at that input. -/
theorem renderLine_exact_role_counterexample :
    ¬ ∀ m : Message,
        renderLine m =
          (if m.role = "user" then "User: " else "Assistant: ")
            ++ truncContent MAX_HISTORY_CHAR m.content := by
  intro hall
  have h := hall ⟨"USER", "x", none⟩
  revert h
  decide

/-- Claim C6 (amended): the line label is `"User: "` exactly when the
lowercased role equals `"user"` (so capitalizations such as `"User"` or
`"USER"` also get the user label), `"Assistant: "` otherwise; lines appear
in original message order for the retained slice, joined by newlines. -/
theorem historyRendering_lowercased_roles (h : List Message) :
    buildConversationText h =
      String.intercalate "\n" ((pySliceLast MAX_HISTORY_MESSAGES h).map renderLine)
    ∧ ∀ m : Message,
        renderLine m =
          (if pyLower m.role = "user" then "User: " else "Assistant: ")
            ++ truncContent MAX_HISTORY_CHAR m.content := by
  refine ⟨rfl, ?_⟩
  intro m
  by_cases hr : pyLower m.role = "user"
  · simp [renderLine, hr]
  · simp [renderLine, hr]

/-- Claim C7: whenever `generate_answer` returns a result (backend path or
fallback path), its sources list is exactly the `metadata.source` of each
input chunk, in input order, `none` where the metadata lacks the key. -/
theorem generate_answer_sources_in_order (backend : Backend) (q : String)
    (chunks : List Chunk) (r : GenResult)
    (hr : generate_answer backend q chunks = Except.ok r) :
    r.sources = chunks.map (fun c => c.metadata.source) := by
  cases backend with
  | nosdk =>
      simp only [generate_answer] at hr
      injection hr with h2
      rw [← h2]
  | sdk g =>
      simp only [generate_answer] at hr
      cases hg : g (build_prompt q chunks) with
      | ok text =>
          rw [hg] at hr
          injection hr with h2
          rw [← h2]
      | error e =>
          rw [hg] at hr
          exact Except.noConfusion hr

/-- Witness for C7: the fallback path on one source-less chunk yields the
single-entry `none` sources list. -/
theorem generate_answer_sources_witness :
    (⟨"[LOCAL-FALLBACK] c", [none]⟩ : GenResult).sources =
      [(⟨"c", ⟨none, none⟩, none⟩ : Chunk)].map (fun c => c.metadata.source) :=
  generate_answer_sources_in_order Backend.nosdk "q"
    [⟨"c", ⟨none, none⟩, none⟩] ⟨"[LOCAL-FALLBACK] c", [none]⟩ rfl

/-- Claim C8: building the transcript and augmented query is pure (the
embedding's history values are immutable by construction), and the
conversation store is modified only by the optional append step: it is
unchanged when no (or an empty) conversation id is given or when
generation fails, it becomes exactly the appended store when an id is
given and generation succeeds, and entries at every other id are always
preserved. -/
theorem ask_post_store_frame
    (retrieve : String → Except String (List Chunk))
    (gen : String → List Chunk → Except String AnswerObj)
    (now : String) (payload : AskPayload) (store : Store) :
    ((payload.conversation_id = none ∨ payload.conversation_id = some "") →
        (ask_post retrieve gen now payload store).2.1 = store)
    ∧ (∀ ge, gen (augmentedQuery payload.history payload.q)
          (retrievedChunksOf retrieve payload.q) = .error ge →
        (ask_post retrieve gen now payload store).2.1 = store)
    ∧ (∀ cid, payload.conversation_id = some cid → cid ≠ "" →
        ∀ obj, gen (augmentedQuery payload.history payload.q)
            (retrievedChunksOf retrieve payload.q) = .ok obj →
          (ask_post retrieve gen now payload store).2.1 =
            appendConv cid payload.q (normalizeAnswer obj).1 now store)
    ∧ (∀ cid, payload.conversation_id = some cid →
        ∀ j, j ≠ cid →
          lookupStore j (ask_post retrieve gen now payload store).2.1 =
            lookupStore j store) := by
  refine ⟨?_, ?_, ?_, ?_⟩
  · intro h
    cases hg : gen (augmentedQuery payload.history payload.q)
        (retrievedChunksOf retrieve payload.q) with
    | error e => simp [ask_post, hg]
    | ok obj => rcases h with h | h <;> simp [ask_post, hg, h]
  · intro ge hge
    simp [ask_post, hge]
  · intro cid hcid hne obj hobj
    simp [ask_post, hobj, hcid, hne]
  · intro cid hcid j hj
    cases hg : gen (augmentedQuery payload.history payload.q)
        (retrievedChunksOf retrieve payload.q) with
    | error e => simp [ask_post, hg]
    | ok obj =>
        by_cases hc : cid = ""
        · simp [ask_post, hg, hcid, hc]
        · simp [ask_post, hg, hcid, hc, appendConv,
            lookupStore_insertStore_ne _ _ _ _ hj]

/-- Witness for C8 at concrete inputs: no id leaves the store unchanged,
a failing generator leaves it unchanged, a given id yields exactly the
appended store, and a different id's entry is preserved. -/
theorem ask_post_store_frame_witness :
    (ask_post (fun _ => .ok []) (fun _ _ => .ok (.str "a")) "t"
        ⟨"q", [], none⟩ []).2.1 = []
    ∧ (ask_post (fun _ => .ok []) (fun _ _ => .error "x") "t"
        ⟨"q", [], some "c1"⟩ []).2.1 = []
    ∧ (ask_post (fun _ => .ok []) (fun _ _ => .ok (.str "a")) "t"
        ⟨"q", [], some "c1"⟩ []).2.1 =
      appendConv "c1" "q" (normalizeAnswer (.str "a")).1 "t" []
    ∧ lookupStore "zz" (ask_post (fun _ => .ok []) (fun _ _ => .ok (.str "a")) "t"
        ⟨"q", [], some "c1"⟩ []).2.1 = lookupStore "zz" [] :=
  ⟨(ask_post_store_frame _ _ _ _ _).1 (Or.inl rfl),
   (ask_post_store_frame _ _ _ _ _).2.1 "x" rfl,
   (ask_post_store_frame _ _ _ _ _).2.2.1 "c1" rfl (by decide) (.str "a") rfl,
   (ask_post_store_frame _ _ _ _ _).2.2.2 "c1" rfl "zz" (by decide)⟩

/-- Claim C9 counterexample: the spec claims `save_chat` returns the
provided name whenever one is given; providing the empty-string name
(falsy in Python) makes the handler return the generated
`chat_`-prefixed name instead, not the provided `""`. -/
theorem save_chat_empty_name_counterexample :
    (save_chat "0123456789abcdef" ⟨some "", []⟩ []).1.2 = "chat_01234567"
    ∧ (save_chat "0123456789abcdef" ⟨some "", []⟩ []).1.2 ≠ "" := by
  constructor
  · rfl
  · decide

/-- Claim C9 (amended): `save_chat` stores the provided history under the
freshly generated UUID id and returns that id with the provided name when
the name is non-empty (or the generated `"chat_" + id[:8]` name when the
name is missing or empty); assuming the generated id is fresh, every
previously stored conversation is unchanged. -/
theorem save_chat_fresh_insert (freshId : String) (payload : SaveChatPayload)
    (store : Store) (hfresh : lookupStore freshId store = none) :
    (save_chat freshId payload store).1.1 = freshId
    ∧ (save_chat freshId payload store).1.2 =
        (match payload.name with
         | some n => if n = "" then "chat_" ++ pyTake 8 freshId else n
         | none => "chat_" ++ pyTake 8 freshId)
    ∧ lookupStore freshId (save_chat freshId payload store).2 =
        some ⟨(save_chat freshId payload store).1.2, payload.history⟩
    ∧ ∀ j e, lookupStore j store = some e →
        lookupStore j (save_chat freshId payload store).2 = some e := by
  refine ⟨rfl, rfl, ?_, ?_⟩
  · simp [save_chat, lookupStore_insertStore_self]
  · intro j e hje
    by_cases hj : j = freshId
    · rw [hj, hfresh] at hje
      exact Option.noConfusion hje
    · rw [save_chat, lookupStore_insertStore_ne _ _ _ _ hj]
      exact hje

/-- Witness for C9 (amended): saving under a fresh id stores the history
with the generated name and leaves the pre-existing conversation
untouched. -/
theorem save_chat_fresh_insert_witness :
    lookupStore "id1" (save_chat "id1" ⟨none, [⟨"user", "hi", none⟩]⟩
        [("old", ⟨"o", []⟩)]).2 = some ⟨"chat_id1", [⟨"user", "hi", none⟩]⟩
    ∧ lookupStore "old" (save_chat "id1" ⟨none, [⟨"user", "hi", none⟩]⟩
        [("old", ⟨"o", []⟩)]).2 = some ⟨"o", []⟩ :=
  ⟨(save_chat_fresh_insert "id1" ⟨none, [⟨"user", "hi", none⟩]⟩
      [("old", ⟨"o", []⟩)] rfl).2.2.1,
   (save_chat_fresh_insert "id1" ⟨none, [⟨"user", "hi", none⟩]⟩
      [("old", ⟨"o", []⟩)] rfl).2.2.2 "old" ⟨"o", []⟩ rfl⟩

/-- Claim C10: when the generator's dict has a missing, `None`, or empty
`"answer"` value, the normalized answer text is the dict's truthy
`"text"` value if any, else the stringification of the whole dict — and
in either case it is never the empty string. -/
theorem normalizeAnswer_no_empty_answer (d : AnswerDict)
    (h : pyGetKey d.answer = none ∨ pyGetKey d.answer = some "") :
    (normalizeAnswer (AnswerObj.dict d)).1 =
      (match pyTruthy (pyGetKey d.text) with
       | some t => t
       | none => pyStrAnswerDict d)
    ∧ (normalizeAnswer (AnswerObj.dict d)).1 ≠ "" := by
  have hA : pyTruthy (pyGetKey d.answer) = none := by
    rcases h with h | h <;> simp [pyTruthy, h]
  have heq : (normalizeAnswer (AnswerObj.dict d)).1 =
      (match pyTruthy (pyGetKey d.text) with
       | some t => t
       | none => pyStrAnswerDict d) := by
    simp [normalizeAnswer, answerTextOfDict, hA]
  refine ⟨heq, ?_⟩
  rw [heq]
  cases ht : pyTruthy (pyGetKey d.text) with
  | some t => exact pyTruthy_some_ne_empty _ _ ht
  | none =>
      show pyStrAnswerDict d ≠ ""
      unfold pyStrAnswerDict
      exact append_left_ne_empty _ _ (by decide)

/-- Witness for C10: a dict with a `None` answer and text `"t"` normalizes
to the non-empty answer text `"t"`. -/
theorem normalizeAnswer_no_empty_answer_witness :
    (normalizeAnswer (AnswerObj.dict ⟨some none, some (some "t"), none⟩)).1 = "t"
    ∧ (normalizeAnswer (AnswerObj.dict ⟨some none, some (some "t"), none⟩)).1 ≠ "" := by
  have h := normalizeAnswer_no_empty_answer ⟨some none, some (some "t"), none⟩
    (Or.inl rfl)
  exact ⟨h.1.trans rfl, h.2⟩

end RAG
